import Mathlib

/-!
Verification of the Fortify booking/mission core.

The development shallowly embeds:
* `public.create_booking_safe` from
  `src/supabase/ADD_EVENT_TYPES_AND_PARTICIPANT_DATA.sql` (lines 102-259):
  the concurrency-safe booking routine, modelled as a pure function over an
  explicit database snapshot, with the possible exceptions of the atomic
  insert step made explicit via a `Fault` parameter;
* the two variants of `getUserMissions` from `src/lib/api/missions.ts`
  (the first with separate "9 Touchpoints" / extra-assessment milestones,
  the second with a single combined target-10 milestone), modelled as pure
  functions from the fetched booking rows and attendance records.
-/

namespace Fortify

/-- Calendar timestamp at minute granularity, standing in for the JS `Date`
(and SQL `timestamptz`) values the code manipulates.  `tod` is minutes past
midnight.  Comparison of two such values is via the injective `key` below,
matching JS comparison of absolute times for in-range dates. -/
structure Date where
  year : Nat
  month : Nat
  day : Nat
  tod : Nat
deriving DecidableEq, Repr

/-- Linearisation key: lexicographic on (year, month, day, tod). -/
def Date.key (d : Date) : Nat :=
  ((d.year * 12 + d.month) * 32 + d.day) * 1440 + d.tod

/-- Boolean `≤` on dates (JS `a <= b`). -/
def Date.ble (a b : Date) : Bool := a.key ≤ b.key

/-- Boolean `<` on dates (JS `a < b`). -/
def Date.blt (a b : Date) : Bool := a.key < b.key

def isLeapYear (y : Nat) : Bool :=
  y % 4 == 0 && (y % 100 != 0 || y % 400 == 0)

def daysInMonth (y m : Nat) : Nat :=
  if m == 2 then (if isLeapYear y then 29 else 28)
  else if m == 4 || m == 6 || m == 9 || m == 11 then 30
  else 31

/-- JS `date.setMonth(date.getMonth() + 3)`: add 3 to the month field,
carry the year, and let an out-of-range day-of-month overflow into the next
month (e.g. Jan 31 + 3 months = Apr 31 → May 1), as `Date.setMonth` does. -/
def Date.addThreeMonths (d : Date) : Date :=
  let m0 := d.month + 3
  let y1 := if m0 > 12 then d.year + 1 else d.year
  let m1 := if m0 > 12 then m0 - 12 else m0
  let dim := daysInMonth y1 m1
  if d.day > dim then
    if m1 == 12 then ⟨y1 + 1, 1, d.day - dim, d.tod⟩
    else ⟨y1, m1 + 1, d.day - dim, d.tod⟩
  else ⟨y1, m1, d.day, d.tod⟩

/-- The `event_type` enum.  The migration adds the three study categories;
`other` stands for any remaining label of the pre-existing enum. -/
inductive EventType
  | funAssessmentDay
  | dexaScan
  | touchpoints
  | other
deriving DecidableEq, Repr

inductive BookingStatus
  | confirmed
  | cancelled
deriving DecidableEq, Repr

/-- A row of `public.events` (the columns `create_booking_safe` reads). -/
structure Event where
  id : Nat
  eventType : EventType
  dateTime : Date
  maxCapacity : Nat
deriving DecidableEq, Repr

/-- A row of `public.bookings` (the columns the core reads/writes). -/
structure Booking where
  id : Nat
  userId : Nat
  eventId : Nat
  status : BookingStatus
deriving DecidableEq, Repr

/-- Snapshot of the two tables `create_booking_safe` touches. -/
structure DB where
  events : List Event
  bookings : List Booking
deriving DecidableEq, Repr

/-- `select id from bookings where user_id = … and event_id = … and
status = 'confirmed' for update` (the step-4 duplicate check). -/
def findConfirmedBooking (bs : List Booking) (uid eid : Nat) : Option Booking :=
  bs.find? (fun b =>
    b.userId == uid && b.eventId == eid && decide (b.status = BookingStatus.confirmed))

/-- `select max_capacity, date_time, event_type from events where id = …
for update` (the step-5 event lookup; `none` = event not found). -/
def findEvent (evs : List Event) (eid : Nat) : Option Event :=
  evs.find? (fun e => e.id == eid)

/-- The single-active-category query: `select b.id from bookings b inner
join events e on e.id = b.event_id where b.user_id = … and b.status =
'confirmed' and e.event_type = … and e.date_time >= now() for update`. -/
def findSameTypeBooking (db : DB) (uid : Nat) (t : EventType) (now : Date) :
    Option Booking :=
  db.bookings.find? (fun b =>
    b.userId == uid && decide (b.status = BookingStatus.confirmed) &&
      (match findEvent db.events b.eventId with
       | some e => decide (e.eventType = t) && now.ble e.dateTime
       | none => false))

/-- `select count(*) from bookings where event_id = … and status =
'confirmed'` (the subquery guarding the atomic insert). -/
def countConfirmed (bs : List Booking) (eid : Nat) : Nat :=
  (bs.filter (fun b =>
    b.eventId == eid && decide (b.status = BookingStatus.confirmed))).length

/-- The `jsonb_build_object('success', …, 'error', …, 'booking_id', …)`
payload every exit path of `create_booking_safe` returns. -/
structure BookingResult where
  success : Bool
  error : Option String
  bookingId : Option Nat
deriving DecidableEq, Repr

def failRes (msg : String) : BookingResult := ⟨false, some msg, none⟩

def invalidInputMsg : String := "Invalid input: user_id and event_id are required"
def notAuthenticatedMsg : String := "Not authenticated"
def unauthorizedMsg : String := "Unauthorized: can only create bookings for yourself"
def alreadyBookedMsg : String := "You are already booked for this event"
def eventNotFoundMsg : String := "Event not found"
def pastEventMsg : String := "Cannot book past events"
def eventFullMsg : String := "Event is fully booked"

/-- The `case v_event_type … end` labelling in the category-conflict
message ("human terms" for the two restricted categories; the `else`
arm is the raw enum text). -/
def categoryLabel : EventType → String
  | .funAssessmentDay => "FUN/Assessment Day"
  | .dexaScan => "DEXA Scan"
  | .touchpoints => "touchpoints"
  | .other => "other"

def categoryConflictMsg (t : EventType) : String :=
  "You already have a confirmed booking for a " ++ categoryLabel t ++
    " event. Please cancel your existing booking first."

/-- Outcome of executing the atomic insert statement: it either runs
normally, raises `unique_violation` (the partial unique index on confirmed
(user, event) pairs), or raises some other error carrying SQLERRM and
SQLSTATE.  This makes the `exception` block's inputs explicit. -/
inductive Fault
  | ok
  | uniqueViolation
  | otherError (sqlerrm : String) (sqlstate : String)
deriving DecidableEq, Repr

/-- `raise warning 'Error in create_booking_safe for user %, event %: %
(SQLSTATE: %)' …` — the server-side log line of the `when others` arm. -/
def internalWarning (uid eid : Nat) (errm st : String) : String :=
  "Error in create_booking_safe for user " ++ toString uid ++ ", event " ++
    toString eid ++ ": " ++ errm ++ " (SQLSTATE: " ++ st ++ ")"

/-- Full outcome of one `create_booking_safe` call: the returned payload,
the database after the call, and the warning logged (if any). -/
structure COutcome where
  res : BookingResult
  db : DB
  warning : Option String
deriving DecidableEq, Repr

/-- The atomic conditional insert (step 8) together with the function's
`exception` block.  The insert only runs its row when the live confirmed
count is still `< capacity`; a `unique_violation` raised by the insert is
translated to the `alreadyBookedMsg` payload, and any other error to the
`when others` payload (message `'Failed to create booking: ' || SQLERRM`)
plus the server-side warning. -/
def attemptInsert (db : DB) (uid eid cap newId : Nat) (fault : Fault) : COutcome :=
  match fault with
  | .otherError errm st =>
      ⟨failRes ("Failed to create booking: " ++ errm), db,
        some (internalWarning uid eid errm st)⟩
  | .uniqueViolation =>
      if countConfirmed db.bookings eid < cap then
        ⟨failRes alreadyBookedMsg, db, none⟩
      else
        ⟨failRes eventFullMsg, db, none⟩
  | .ok =>
      if countConfirmed db.bookings eid < cap then
        ⟨⟨true, none, some newId⟩,
          { db with bookings := db.bookings ++ [⟨newId, uid, eid, .confirmed⟩] },
          none⟩
      else
        ⟨failRes eventFullMsg, db, none⟩

/-- Shallow embedding of `public.create_booking_safe(p_user_id, p_event_id)`.
`authUid` is `auth.uid()`, `now` the transaction time, `db` the snapshot the
locked transaction observes, `newId` the id the insert would generate, and
`fault` the behaviour of the atomic insert statement (normal / raised
exception).  The checks appear in the source's order: null inputs,
authentication, authorisation, duplicate booking, event lookup, past event,
single-active-category, then the conditional insert. -/
def create_booking_safe (authUid pUserId pEventId : Option Nat) (now : Date)
    (db : DB) (newId : Nat) (fault : Fault) : COutcome :=
  match pUserId, pEventId with
  | some uid, some eid =>
    (match authUid with
     | none => ⟨failRes notAuthenticatedMsg, db, none⟩
     | some cur =>
       if cur ≠ uid then ⟨failRes unauthorizedMsg, db, none⟩
       else
         match findConfirmedBooking db.bookings uid eid with
         | some _ => ⟨failRes alreadyBookedMsg, db, none⟩
         | none =>
           match findEvent db.events eid with
           | none => ⟨failRes eventNotFoundMsg, db, none⟩
           | some ev =>
             if ev.dateTime.blt now then ⟨failRes pastEventMsg, db, none⟩
             else if ev.eventType = .funAssessmentDay ∨ ev.eventType = .dexaScan then
               match findSameTypeBooking db uid ev.eventType now with
               | some _ => ⟨failRes (categoryConflictMsg ev.eventType), db, none⟩
               | none => attemptInsert db uid eid ev.maxCapacity newId fault
             else attemptInsert db uid eid ev.maxCapacity newId fault)
  | _, _ => ⟨failRes invalidInputMsg, db, none⟩

/-! ## Mission engine (`src/lib/api/missions.ts`) -/

inductive MStatus
  | notStarted
  | incomplete
  | completed
deriving DecidableEq, Repr

/-- Numeric rank of a status along `not_started → incomplete → completed`. -/
def MStatus.rank : MStatus → Nat
  | .notStarted => 0
  | .incomplete => 1
  | .completed => 2

/-- One entry of the `Mission[]` array `getUserMissions` returns. -/
structure Mission where
  id : Nat
  title : String
  description : String
  status : MStatus
  isLocked : Bool
  progress : Option String
  unlockDate : Option Date
deriving DecidableEq, Repr

/-- The joined `events` sub-object of one fetched booking row. -/
structure EventInfo where
  id : Nat
  eventType : EventType
  dateTime : Date
deriving DecidableEq, Repr

/-- One row of the `bookings … select events(…)` query, already filtered to
`status = 'confirmed'` for the user; the join may be null. -/
structure BookingRow where
  eventInfo : Option EventInfo
deriving DecidableEq, Repr

/-- One row of the `event_participant_data` query for the user. -/
structure ParticipantDataRow where
  eventId : Nat
  attendance : Option Bool
deriving DecidableEq, Repr

/-- The `attendanceByEventId` map: an event id is marked attended exactly
when some participant-data row for it has `attendance === true`. -/
def mkAttendance (pds : List ParticipantDataRow) : Nat → Bool :=
  fun e => pds.any (fun pd => pd.eventId == e && pd.attendance == some true)

/-- The `forEach` classification: keep the rows whose join resolved and
whose event has the given type, in fetch order. -/
def eventsOfType (rows : List BookingRow) (t : EventType) : List EventInfo :=
  (rows.filterMap (fun r => r.eventInfo)).filter (fun e => decide (e.eventType = t))

/-- Stable insertion by ascending `dateTime`, mirroring the JS stable
`sort((a, b) => a.dateTime.getTime() - b.dateTime.getTime())`. -/
def insertByDate (e : EventInfo) : List EventInfo → List EventInfo
  | [] => [e]
  | x :: xs =>
      if e.dateTime.ble x.dateTime then e :: x :: xs else x :: insertByDate e xs

def sortByDate (l : List EventInfo) : List EventInfo :=
  l.foldr insertByDate []

/-- The user's confirmed assessment bookings, sorted by date. -/
def funEvs (rows : List BookingRow) : List EventInfo :=
  sortByDate (eventsOfType rows .funAssessmentDay)

/-- The user's confirmed scan bookings, sorted by date. -/
def scanEvs (rows : List BookingRow) : List EventInfo :=
  sortByDate (eventsOfType rows .dexaScan)

/-- The user's confirmed touchpoint bookings, sorted by date. -/
def tpEvs (rows : List BookingRow) : List EventInfo :=
  sortByDate (eventsOfType rows .touchpoints)

/-- Three-way status of the earliest event of a list: `not_started` when
none is booked, else `completed`/`incomplete` by the attendance flag of the
earliest one (missions 1 and 2). -/
def firstEventStatus (es : List EventInfo) (att : Nat → Bool) : MStatus :=
  match es with
  | [] => .notStarted
  | e :: _ => if att e.id then .completed else .incomplete

def countAttended (es : List EventInfo) (att : Nat → Bool) : Nat :=
  (es.filter (fun e => att e.id)).length

/-- The counting milestones' status: gated on a predecessor status, then
`completed` once the attended count reaches the target, `incomplete` while
anything is booked, else `not_started`. -/
def targetStatus (gate : MStatus) (completedCount booked target : Nat) : MStatus :=
  if gate = .completed then
    if target ≤ completedCount then .completed
    else if 0 < booked then .incomplete
    else .notStarted
  else .notStarted

def mission1Status (rows : List BookingRow) (att : Nat → Bool) : MStatus :=
  firstEventStatus (funEvs rows) att

def mission2Status (rows : List BookingRow) (att : Nat → Bool) : MStatus :=
  if mission1Status rows att = .completed then firstEventStatus (scanEvs rows) att
  else .notStarted

def mission3aStatus (rows : List BookingRow) (att : Nat → Bool) : MStatus :=
  targetStatus (mission2Status rows att) (countAttended (tpEvs rows) att)
    (tpEvs rows).length 9

def mission3bStatus (rows : List BookingRow) (att : Nat → Bool) : MStatus :=
  targetStatus (mission2Status rows att) (countAttended ((funEvs rows).drop 1) att)
    ((funEvs rows).length - 1) 1

/-- `threeMonthsLater`: the first assessment date shifted by
`setMonth(getMonth() + 3)`, when a first assessment booking exists. -/
def threeMonthsLater (rows : List BookingRow) : Option Date :=
  (funEvs rows).head?.map (fun e => e.dateTime.addThreeMonths)

/-- `isMission5Unlocked`: a first assessment date exists and
`now >= threeMonthsLater`. -/
def mission5Unlocked (rows : List BookingRow) (now : Date) : Bool :=
  match threeMonthsLater rows with
  | some t => t.ble now
  | none => false

/-- The final (post-3-months) mission's status: when unlocked, `completed`
if some assessment booking at/after the unlock date is attended, else
`incomplete` if one is booked, else `not_started`. -/
def mission5Status (rows : List BookingRow) (att : Nat → Bool) (now : Date) : MStatus :=
  match threeMonthsLater rows with
  | some t =>
      if t.ble now then
        if (funEvs rows).any (fun e => t.ble e.dateTime && att e.id) then .completed
        else if (funEvs rows).any (fun e => t.ble e.dateTime) then .incomplete
        else .notStarted
      else .notStarted
  | none => .notStarted

/-- Variant 1 of `getUserMissions` (missions.ts lines 18-202), over the
attendance map: five missions, with "9 Touchpoints" and the extra
assessment as two milestones both gated on mission 2. -/
def getUserMissionsCore (rows : List BookingRow) (att : Nat → Bool) (now : Date) :
    List Mission :=
  [ ⟨1, "FUN/Assessment Day", "Complete your first assessment day",
      mission1Status rows att, false, none, none⟩,
    ⟨2, "DEXA Scan", "Complete your DEXA scan",
      mission2Status rows att, mission1Status rows att ≠ .completed, none, none⟩,
    ⟨3, "9 Touchpoints", "Complete 9 touchpoint sessions",
      mission3aStatus rows att, mission2Status rows att ≠ .completed,
      if mission3aStatus rows att ≠ .notStarted then
        some (toString (countAttended (tpEvs rows) att) ++ "/9 completed (" ++
          toString (tpEvs rows).length ++ " booked)")
      else none, none⟩,
    ⟨4, "FUN/Assessment Day",
      "Complete 1 additional FUN/Assessment Day (after your first one)",
      mission3bStatus rows att, mission2Status rows att ≠ .completed,
      if mission3bStatus rows att ≠ .notStarted then
        some (toString (countAttended ((funEvs rows).drop 1) att) ++
          "/1 completed (" ++ toString ((funEvs rows).length - 1) ++ " booked)")
      else none, none⟩,
    ⟨5, "Post 3 Months FUN/Assessment Day",
      "Complete your 3-month follow-up assessment",
      mission5Status rows att now, !mission5Unlocked rows now, none,
      threeMonthsLater rows⟩ ]

/-- Variant 1 of `getUserMissions`, from the fetched rows. -/
def getUserMissions (rows : List BookingRow) (pds : List ParticipantDataRow)
    (now : Date) : List Mission :=
  getUserMissionsCore rows (mkAttendance pds) now

/-- Variant 2's combined milestone: touchpoint plus post-first assessment
attendances counted against a single target of 10. -/
def mission3StatusV2 (rows : List BookingRow) (att : Nat → Bool) : MStatus :=
  targetStatus (mission2Status rows att)
    (countAttended (tpEvs rows) att + countAttended ((funEvs rows).drop 1) att)
    ((tpEvs rows).length + ((funEvs rows).length - 1)) 10

/-- Variant 2 of `getUserMissions` (missions.ts lines 220-389), over the
attendance map: four missions, with a single combined "9 Touchpoints &
FUN/Assessment Day" milestone of target 10. -/
def getUserMissionsCoreV2 (rows : List BookingRow) (att : Nat → Bool) (now : Date) :
    List Mission :=
  [ ⟨1, "FUN/Assessment Day", "Complete your first assessment day",
      mission1Status rows att, false, none, none⟩,
    ⟨2, "DEXA Scan", "Complete your DEXA scan",
      mission2Status rows att, mission1Status rows att ≠ .completed, none, none⟩,
    ⟨3, "9 Touchpoints & FUN/Assessment Day",
      "Complete 9 touchpoints and 1 additional FUN/Assessment Day",
      mission3StatusV2 rows att, mission2Status rows att ≠ .completed,
      if mission3StatusV2 rows att ≠ .notStarted then
        some (toString (countAttended (tpEvs rows) att +
            countAttended ((funEvs rows).drop 1) att) ++ "/10 completed (" ++
          toString ((tpEvs rows).length + ((funEvs rows).length - 1)) ++ " booked)")
      else none, none⟩,
    ⟨4, "Post 3 Months FUN/Assessment Day",
      "Complete your 3-month follow-up assessment",
      mission5Status rows att now, !mission5Unlocked rows now, none,
      threeMonthsLater rows⟩ ]

/-- Variant 2 of `getUserMissions`, from the fetched rows. -/
def getUserMissionsV2 (rows : List BookingRow) (pds : List ParticipantDataRow)
    (now : Date) : List Mission :=
  getUserMissionsCoreV2 rows (mkAttendance pds) now

/-! ## Verification -/

/-- Appending elements that all fail the predicate does not change `find?`. -/
theorem find?_append_fail {α : Type} (p : α → Bool) (l₁ l₂ : List α)
    (h : ∀ b ∈ l₂, p b = false) : (l₁ ++ l₂).find? p = l₁.find? p := by
  induction l₁ with
  | nil =>
      simp only [List.nil_append, List.find?_nil]
      exact List.find?_eq_none.mpr (fun x hx => by simp [h x hx])
  | cons a l ih =>
      by_cases ha : p a
      · simp [List.find?_cons, ha]
      · simp only [List.cons_append, List.find?_cons, ha]
        simpa [ha] using ih

theorem countConfirmed_snoc (bs : List Booking) (b : Booking) (eid : Nat) :
    countConfirmed (bs ++ [b]) eid =
      countConfirmed bs eid +
        (if b.eventId = eid ∧ b.status = BookingStatus.confirmed then 1 else 0) := by
  unfold countConfirmed
  rw [List.filter_append, List.length_append]
  congr 1
  by_cases h : b.eventId = eid ∧ b.status = BookingStatus.confirmed
  · simp [List.filter_singleton, h.1, h.2, h]
  · have hp : (b.eventId == eid && decide (b.status = BookingStatus.confirmed)) = false := by
      rcases Decidable.not_and_iff_or_not.mp h with h1 | h1 <;> simp [h1]
    simp [List.filter_singleton, hp, h]

theorem attemptInsert_db_cases (db : DB) (uid eid cap nid : Nat) (f : Fault) :
    (attemptInsert db uid eid cap nid f).db = db ∨
    (countConfirmed db.bookings eid < cap ∧
      (attemptInsert db uid eid cap nid f).db =
        { db with bookings := db.bookings ++ [⟨nid, uid, eid, .confirmed⟩] }) := by
  unfold attemptInsert
  rcases f with _ | _ | ⟨e, s⟩
  · by_cases h : countConfirmed db.bookings eid < cap
    · exact Or.inr ⟨h, by simp [h]⟩
    · exact Or.inl (by simp [h])
  · by_cases h : countConfirmed db.bookings eid < cap <;> simp [h]
  · exact Or.inl rfl

/-- Where a `create_booking_safe` call can leave the database: unchanged, or
with exactly one new confirmed booking appended, inserted only on the path
where the duplicate check found nothing, the event was found, and the live
confirmed count was below capacity. -/
theorem create_db_cases (authUid pu pe : Option Nat) (now : Date) (db : DB)
    (nid : Nat) (f : Fault) :
    (create_booking_safe authUid pu pe now db nid f).db = db ∨
    ∃ uid eid ev,
      pu = some uid ∧ pe = some eid ∧
      findConfirmedBooking db.bookings uid eid = none ∧
      findEvent db.events eid = some ev ∧
      countConfirmed db.bookings eid < ev.maxCapacity ∧
      (create_booking_safe authUid pu pe now db nid f).db =
        { db with bookings := db.bookings ++ [⟨nid, uid, eid, .confirmed⟩] } := by
  unfold create_booking_safe
  rcases pu with _ | uid
  · exact Or.inl rfl
  rcases pe with _ | eid
  · exact Or.inl rfl
  rcases authUid with _ | cur
  · exact Or.inl rfl
  dsimp only
  by_cases hcur : cur ≠ uid
  · rw [if_pos hcur]; exact Or.inl rfl
  rw [if_neg hcur]
  cases hdup : findConfirmedBooking db.bookings uid eid with
  | some b => exact Or.inl rfl
  | none =>
  cases hev : findEvent db.events eid with
  | none => exact Or.inl rfl
  | some ev =>
  dsimp only
  by_cases hpast : ev.dateTime.blt now
  · rw [if_pos hpast]; exact Or.inl rfl
  rw [if_neg hpast]
  by_cases hcat : ev.eventType = EventType.funAssessmentDay ∨ ev.eventType = EventType.dexaScan
  · rw [if_pos hcat]
    cases hst : findSameTypeBooking db uid ev.eventType now with
    | some b => exact Or.inl rfl
    | none =>
        rcases attemptInsert_db_cases db uid eid ev.maxCapacity nid f with h | ⟨hlt, h⟩
        · exact Or.inl h
        · exact Or.inr ⟨uid, eid, ev, rfl, rfl, hdup, hev, hlt, h⟩
  · rw [if_neg hcat]
    rcases attemptInsert_db_cases db uid eid ev.maxCapacity nid f with h | ⟨hlt, h⟩
    · exact Or.inl h
    · exact Or.inr ⟨uid, eid, ev, rfl, rfl, hdup, hev, hlt, h⟩

/-- Capacity invariant: every event's confirmed count is within capacity. -/
def capacityInv (db : DB) : Prop :=
  ∀ eid ev, findEvent db.events eid = some ev →
    countConfirmed db.bookings eid ≤ ev.maxCapacity

theorem capacityInv_preserved (authUid pu pe : Option Nat) (now : Date) (db : DB)
    (nid : Nat) (f : Fault) (hinv : capacityInv db) :
    capacityInv (create_booking_safe authUid pu pe now db nid f).db := by
  rcases create_db_cases authUid pu pe now db nid f with h | ⟨uid, eid, ev, _, _, _, hev, hlt, h⟩
  · rwa [h]
  · rw [h]
    intro eid' ev' hev'
    have hev'' : findEvent db.events eid' = some ev' := hev'
    show countConfirmed (db.bookings ++ [⟨nid, uid, eid, .confirmed⟩]) eid' ≤
      ev'.maxCapacity
    by_cases he : eid = eid'
    · subst he
      rw [hev] at hev''
      obtain rfl : ev = ev' := Option.some.inj hev''
      have hb : (⟨nid, uid, eid, BookingStatus.confirmed⟩ : Booking).eventId = eid ∧
          (⟨nid, uid, eid, BookingStatus.confirmed⟩ : Booking).status =
            BookingStatus.confirmed := ⟨rfl, rfl⟩
      rw [countConfirmed_snoc, if_pos hb]
      omega
    · rw [countConfirmed_snoc, if_neg (fun hc => he hc.1)]
      have := hinv eid' ev' hev''
      omega

/-! Step-by-step reduction lemmas for `create_booking_safe`. -/

theorem create_missing_input (authUid pu pe : Option Nat) (now : Date) (db : DB)
    (nid : Nat) (f : Fault) (h : pu = none ∨ pe = none) :
    create_booking_safe authUid pu pe now db nid f =
      ⟨failRes invalidInputMsg, db, none⟩ := by
  unfold create_booking_safe
  rcases pu with _ | uid
  · rfl
  · rcases pe with _ | eid
    · rfl
    · rcases h with h | h <;> exact absurd h (by simp)

theorem create_unauthenticated (uid eid : Nat) (now : Date) (db : DB)
    (nid : Nat) (f : Fault) :
    create_booking_safe none (some uid) (some eid) now db nid f =
      ⟨failRes notAuthenticatedMsg, db, none⟩ := rfl

theorem create_unauthorized (cur uid eid : Nat) (now : Date) (db : DB)
    (nid : Nat) (f : Fault) (h : cur ≠ uid) :
    create_booking_safe (some cur) (some uid) (some eid) now db nid f =
      ⟨failRes unauthorizedMsg, db, none⟩ := by
  unfold create_booking_safe
  dsimp only
  rw [if_pos h]

theorem create_already_booked (uid eid : Nat) (now : Date) (db : DB)
    (nid : Nat) (f : Fault) (b : Booking)
    (hdup : findConfirmedBooking db.bookings uid eid = some b) :
    create_booking_safe (some uid) (some uid) (some eid) now db nid f =
      ⟨failRes alreadyBookedMsg, db, none⟩ := by
  unfold create_booking_safe
  dsimp only
  rw [if_neg (fun h => h rfl), hdup]

theorem create_event_not_found (uid eid : Nat) (now : Date) (db : DB)
    (nid : Nat) (f : Fault)
    (hdup : findConfirmedBooking db.bookings uid eid = none)
    (hev : findEvent db.events eid = none) :
    create_booking_safe (some uid) (some uid) (some eid) now db nid f =
      ⟨failRes eventNotFoundMsg, db, none⟩ := by
  unfold create_booking_safe
  dsimp only
  rw [if_neg (fun h => h rfl), hdup, hev]

theorem create_past_event (uid eid : Nat) (now : Date) (db : DB)
    (nid : Nat) (f : Fault) (ev : Event)
    (hdup : findConfirmedBooking db.bookings uid eid = none)
    (hev : findEvent db.events eid = some ev)
    (hpast : ev.dateTime.blt now = true) :
    create_booking_safe (some uid) (some uid) (some eid) now db nid f =
      ⟨failRes pastEventMsg, db, none⟩ := by
  unfold create_booking_safe
  dsimp only
  rw [if_neg (fun h => h rfl), hdup, hev]
  dsimp only
  rw [if_pos hpast]

theorem create_category_conflict (uid eid : Nat) (now : Date) (db : DB)
    (nid : Nat) (f : Fault) (ev : Event) (b : Booking)
    (hdup : findConfirmedBooking db.bookings uid eid = none)
    (hev : findEvent db.events eid = some ev)
    (hpast : ev.dateTime.blt now = false)
    (hcat : ev.eventType = EventType.funAssessmentDay ∨
      ev.eventType = EventType.dexaScan)
    (hst : findSameTypeBooking db uid ev.eventType now = some b) :
    create_booking_safe (some uid) (some uid) (some eid) now db nid f =
      ⟨failRes (categoryConflictMsg ev.eventType), db, none⟩ := by
  unfold create_booking_safe
  dsimp only
  rw [if_neg (fun h => h rfl), hdup, hev]
  dsimp only
  rw [if_neg (by simp [hpast]), if_pos hcat, hst]

/-- When every check up to and including the category check passes, the call
is exactly the atomic insert step. -/
theorem create_insert_path (uid eid : Nat) (now : Date) (db : DB)
    (nid : Nat) (f : Fault) (ev : Event)
    (hdup : findConfirmedBooking db.bookings uid eid = none)
    (hev : findEvent db.events eid = some ev)
    (hpast : ev.dateTime.blt now = false)
    (hcat : ev.eventType = EventType.funAssessmentDay ∨
        ev.eventType = EventType.dexaScan →
      findSameTypeBooking db uid ev.eventType now = none) :
    create_booking_safe (some uid) (some uid) (some eid) now db nid f =
      attemptInsert db uid eid ev.maxCapacity nid f := by
  unfold create_booking_safe
  dsimp only
  rw [if_neg (fun h => h rfl), hdup, hev]
  dsimp only
  rw [if_neg (by simp [hpast])]
  by_cases hc : ev.eventType = EventType.funAssessmentDay ∨
      ev.eventType = EventType.dexaScan
  · rw [if_pos hc, hcat hc]
  · rw [if_neg hc]

theorem attemptInsert_full (db : DB) (uid eid cap nid : Nat)
    (hge : cap ≤ countConfirmed db.bookings eid) :
    attemptInsert db uid eid cap nid .ok = ⟨failRes eventFullMsg, db, none⟩ := by
  unfold attemptInsert
  dsimp only
  rw [if_neg (Nat.not_lt.mpr hge)]

theorem attemptInsert_ok_insert (db : DB) (uid eid cap nid : Nat)
    (hlt : countConfirmed db.bookings eid < cap) :
    attemptInsert db uid eid cap nid .ok =
      ⟨⟨true, none, some nid⟩,
        { db with bookings := db.bookings ++ [⟨nid, uid, eid, .confirmed⟩] },
        none⟩ := by
  unfold attemptInsert
  dsimp only
  rw [if_pos hlt]

theorem attemptInsert_unique (db : DB) (uid eid cap nid : Nat)
    (hlt : countConfirmed db.bookings eid < cap) :
    attemptInsert db uid eid cap nid .uniqueViolation =
      ⟨failRes alreadyBookedMsg, db, none⟩ := by
  unfold attemptInsert
  dsimp only
  rw [if_pos hlt]

theorem attemptInsert_other (db : DB) (uid eid cap nid : Nat) (errm st : String) :
    attemptInsert db uid eid cap nid (.otherError errm st) =
      ⟨failRes ("Failed to create booking: " ++ errm), db,
        some (internalWarning uid eid errm st)⟩ := rfl

/-- C1: the confirmed-booking count of an event never exceeds its capacity:
`create_booking_safe` preserves the capacity invariant because the atomic
insert only fires while the live confirmed count is strictly below
`max_capacity`; and when the conditional insert affects zero rows (count at
capacity, no fault), the call returns the 'Event is fully booked' payload
and leaves the database unchanged. -/
theorem c1_capacity_never_exceeded (authUid pu pe : Option Nat) (now : Date)
    (db : DB) (nid : Nat) (f : Fault) :
    (capacityInv db → capacityInv (create_booking_safe authUid pu pe now db nid f).db) ∧
    (∀ uid eid ev,
      pu = some uid → pe = some eid → authUid = some uid →
      findConfirmedBooking db.bookings uid eid = none →
      findEvent db.events eid = some ev →
      ev.dateTime.blt now = false →
      (ev.eventType = EventType.funAssessmentDay ∨
          ev.eventType = EventType.dexaScan →
        findSameTypeBooking db uid ev.eventType now = none) →
      f = .ok →
      ev.maxCapacity ≤ countConfirmed db.bookings eid →
      create_booking_safe authUid pu pe now db nid f =
        ⟨failRes eventFullMsg, db, none⟩) := by
  constructor
  · exact capacityInv_preserved authUid pu pe now db nid f
  · intro uid eid ev hpu hpe hauth hdup hev hpast hcat hf hge
    subst hpu; subst hpe; subst hauth; subst hf
    rw [create_insert_path uid eid now db nid _ ev hdup hev hpast hcat]
    exact attemptInsert_full db uid eid ev.maxCapacity nid hge

def evW : Event := ⟨10, .other, ⟨2024, 3, 1, 0⟩, 1⟩
def dbW : DB := ⟨[evW], [⟨5, 2, 10, .confirmed⟩]⟩
def nowW : Date := ⟨2024, 2, 20, 0⟩

theorem c1_witness :
    create_booking_safe (some 1) (some 1) (some 10) nowW dbW 99 .ok =
      ⟨failRes eventFullMsg, dbW, none⟩ :=
  (c1_capacity_never_exceeded (some 1) (some 1) (some 10) nowW dbW 99
      .ok).2 1 10 evW rfl rfl rfl (by decide) (by decide) (by decide)
    (fun h => by decide) rfl (by decide)

/-- C2: the result of `create_booking_safe` is determined by the first
failing check in the fixed order (missing input, unauthenticated,
unauthorized, already booked, event not found, event in the past — always,
even with spare capacity —, category conflict, capacity), each failure
returning its tagged payload and leaving the database unmodified. -/
theorem c2_ordered_checks (authUid pu pe : Option Nat) (now : Date) (db : DB)
    (nid : Nat) (f : Fault) :
    ((pu = none ∨ pe = none) →
      create_booking_safe authUid pu pe now db nid f =
        ⟨failRes invalidInputMsg, db, none⟩) ∧
    (∀ uid eid, pu = some uid → pe = some eid → authUid = none →
      create_booking_safe authUid pu pe now db nid f =
        ⟨failRes notAuthenticatedMsg, db, none⟩) ∧
    (∀ uid eid cur, pu = some uid → pe = some eid → authUid = some cur →
      cur ≠ uid →
      create_booking_safe authUid pu pe now db nid f =
        ⟨failRes unauthorizedMsg, db, none⟩) ∧
    (∀ uid eid b, pu = some uid → pe = some eid → authUid = some uid →
      findConfirmedBooking db.bookings uid eid = some b →
      create_booking_safe authUid pu pe now db nid f =
        ⟨failRes alreadyBookedMsg, db, none⟩) ∧
    (∀ uid eid, pu = some uid → pe = some eid → authUid = some uid →
      findConfirmedBooking db.bookings uid eid = none →
      findEvent db.events eid = none →
      create_booking_safe authUid pu pe now db nid f =
        ⟨failRes eventNotFoundMsg, db, none⟩) ∧
    (∀ uid eid ev, pu = some uid → pe = some eid → authUid = some uid →
      findConfirmedBooking db.bookings uid eid = none →
      findEvent db.events eid = some ev →
      ev.dateTime.blt now = true →
      create_booking_safe authUid pu pe now db nid f =
        ⟨failRes pastEventMsg, db, none⟩) ∧
    (∀ uid eid ev b, pu = some uid → pe = some eid → authUid = some uid →
      findConfirmedBooking db.bookings uid eid = none →
      findEvent db.events eid = some ev →
      ev.dateTime.blt now = false →
      (ev.eventType = EventType.funAssessmentDay ∨
        ev.eventType = EventType.dexaScan) →
      findSameTypeBooking db uid ev.eventType now = some b →
      create_booking_safe authUid pu pe now db nid f =
        ⟨failRes (categoryConflictMsg ev.eventType), db, none⟩) ∧
    (∀ uid eid ev, pu = some uid → pe = some eid → authUid = some uid →
      findConfirmedBooking db.bookings uid eid = none →
      findEvent db.events eid = some ev →
      ev.dateTime.blt now = false →
      (ev.eventType = EventType.funAssessmentDay ∨
          ev.eventType = EventType.dexaScan →
        findSameTypeBooking db uid ev.eventType now = none) →
      f = .ok →
      ev.maxCapacity ≤ countConfirmed db.bookings eid →
      create_booking_safe authUid pu pe now db nid f =
        ⟨failRes eventFullMsg, db, none⟩) := by
  refine ⟨?_, ?_, ?_, ?_, ?_, ?_, ?_, ?_⟩
  · exact create_missing_input authUid pu pe now db nid f
  · rintro uid eid rfl rfl rfl
    exact create_unauthenticated uid eid now db nid f
  · rintro uid eid cur rfl rfl rfl h
    exact create_unauthorized cur uid eid now db nid f h
  · rintro uid eid b rfl rfl rfl hdup
    exact create_already_booked uid eid now db nid f b hdup
  · rintro uid eid rfl rfl rfl hdup hev
    exact create_event_not_found uid eid now db nid f hdup hev
  · rintro uid eid ev rfl rfl rfl hdup hev hpast
    exact create_past_event uid eid now db nid f ev hdup hev hpast
  · rintro uid eid ev b rfl rfl rfl hdup hev hpast hcat hst
    exact create_category_conflict uid eid now db nid f ev b hdup hev hpast hcat hst
  · rintro uid eid ev rfl rfl rfl hdup hev hpast hcat rfl hge
    rw [create_insert_path uid eid now db nid _ ev hdup hev hpast hcat]
    exact attemptInsert_full db uid eid ev.maxCapacity nid hge

theorem c2_witness :
    create_booking_safe (some 1) (some 1) (some 10)
        ⟨2024, 3, 2, 0⟩ dbW 99 .ok =
      ⟨failRes pastEventMsg, dbW, none⟩ :=
  (c2_ordered_checks (some 1) (some 1) (some 10) ⟨2024, 3, 2, 0⟩ dbW 99
      .ok).2.2.2.2.2.1 1 10 evW rfl rfl rfl (by decide) (by decide) (by decide)

/-- C3: category exclusivity.  A user holding a confirmed future
assessment booking gets `CategoryConflict` (with the category named in
human terms) when booking another future assessment event; the same holds
for scan; a touchpoint event skips the category check entirely, so the
booking succeeds alongside any existing confirmed touchpoint bookings. -/
theorem c3_category_exclusivity (uid eid : Nat) (now : Date) (db : DB)
    (nid : Nat) (f : Fault) (ev : Event)
    (hdup : findConfirmedBooking db.bookings uid eid = none)
    (hev : findEvent db.events eid = some ev)
    (hpast : ev.dateTime.blt now = false) :
    (∀ b, ev.eventType = EventType.funAssessmentDay →
      findSameTypeBooking db uid EventType.funAssessmentDay now = some b →
      create_booking_safe (some uid) (some uid) (some eid) now db nid f =
        ⟨failRes (categoryConflictMsg EventType.funAssessmentDay), db, none⟩ ∧
      categoryLabel EventType.funAssessmentDay = "FUN/Assessment Day") ∧
    (∀ b, ev.eventType = EventType.dexaScan →
      findSameTypeBooking db uid EventType.dexaScan now = some b →
      create_booking_safe (some uid) (some uid) (some eid) now db nid f =
        ⟨failRes (categoryConflictMsg EventType.dexaScan), db, none⟩ ∧
      categoryLabel EventType.dexaScan = "DEXA Scan") ∧
    (ev.eventType = EventType.touchpoints → f = .ok →
      countConfirmed db.bookings eid < ev.maxCapacity →
      create_booking_safe (some uid) (some uid) (some eid) now db nid f =
        ⟨⟨true, none, some nid⟩,
          { db with bookings := db.bookings ++ [⟨nid, uid, eid, .confirmed⟩] },
          none⟩) := by
  refine ⟨?_, ?_, ?_⟩
  · intro b ht hst
    refine ⟨?_, rfl⟩
    have := create_category_conflict uid eid now db nid f ev b hdup hev hpast
      (Or.inl ht) (ht ▸ hst)
    rwa [ht] at this
  · intro b ht hst
    refine ⟨?_, rfl⟩
    have := create_category_conflict uid eid now db nid f ev b hdup hev hpast
      (Or.inr ht) (ht ▸ hst)
    rwa [ht] at this
  · intro ht hf hlt
    subst hf
    rw [create_insert_path uid eid now db nid _ ev hdup hev hpast
      (fun hc => by rw [ht] at hc; rcases hc with hc | hc <;> exact absurd hc (by simp))]
    exact attemptInsert_ok_insert db uid eid ev.maxCapacity nid hlt

def evC3a : Event := ⟨10, .funAssessmentDay, ⟨2024, 3, 1, 0⟩, 5⟩
def evC3b : Event := ⟨11, .funAssessmentDay, ⟨2024, 4, 1, 0⟩, 5⟩
def dbC3 : DB := ⟨[evC3a, evC3b], [⟨5, 1, 11, .confirmed⟩]⟩

theorem c3_witness :
    create_booking_safe (some 1) (some 1) (some 10) nowW dbC3 99 .ok =
      ⟨failRes (categoryConflictMsg EventType.funAssessmentDay), dbC3, none⟩ ∧
    categoryLabel EventType.funAssessmentDay = "FUN/Assessment Day" :=
  (c3_category_exclusivity 1 10 nowW dbC3 99 .ok evC3a (by decide) (by decide)
      (by decide)).1 ⟨5, 1, 11, .confirmed⟩ rfl (by decide)

/-- The no-duplicate invariant: no two distinct bookings are confirmed for
the same (user, event) pair. -/
def atMostOnePerPair (bs : List Booking) : Prop :=
  List.Pairwise (fun a b => ¬(a.userId = b.userId ∧ a.eventId = b.eventId ∧
    a.status = BookingStatus.confirmed ∧ b.status = BookingStatus.confirmed)) bs

theorem findConfirmedBooking_none_forall {bs : List Booking} {uid eid : Nat}
    (h : findConfirmedBooking bs uid eid = none) :
    ∀ b ∈ bs, ¬(b.userId = uid ∧ b.eventId = eid ∧
      b.status = BookingStatus.confirmed) := by
  intro b hb hc
  have := List.find?_eq_none.mp h b hb
  simp [hc.1, hc.2.1, hc.2.2] at this

/-- C4: at most one confirmed booking per (user, event) is preserved by
every call, and a second attempt for the same pair returns the same
'You are already booked for this event' payload whether the duplicate is
seen by the ordinary step-4 check or surfaces as a uniqueness violation at
the atomic insert (caught and translated, not propagated). -/
theorem c4_already_booked_uniform (uid eid : Nat) (now : Date) (db : DB)
    (nid : Nat) :
    (∀ authUid pu pe f, atMostOnePerPair db.bookings →
      atMostOnePerPair (create_booking_safe authUid pu pe now db nid f).db.bookings) ∧
    (∀ f b, findConfirmedBooking db.bookings uid eid = some b →
      create_booking_safe (some uid) (some uid) (some eid) now db nid f =
        ⟨failRes alreadyBookedMsg, db, none⟩) ∧
    (∀ ev, findConfirmedBooking db.bookings uid eid = none →
      findEvent db.events eid = some ev →
      ev.dateTime.blt now = false →
      (ev.eventType = EventType.funAssessmentDay ∨
          ev.eventType = EventType.dexaScan →
        findSameTypeBooking db uid ev.eventType now = none) →
      countConfirmed db.bookings eid < ev.maxCapacity →
      create_booking_safe (some uid) (some uid) (some eid) now db nid
          .uniqueViolation =
        ⟨failRes alreadyBookedMsg, db, none⟩) := by
  refine ⟨?_, ?_, ?_⟩
  · intro authUid pu pe f hinv
    rcases create_db_cases authUid pu pe now db nid f with h |
      ⟨uid', eid', ev, _, _, hdup, _, _, h⟩
    · rwa [h]
    · rw [h]
      show atMostOnePerPair (db.bookings ++ [⟨nid, uid', eid', .confirmed⟩])
      unfold atMostOnePerPair at hinv ⊢
      rw [List.pairwise_append]
      refine ⟨hinv, List.pairwise_singleton _ _, ?_⟩
      intro a ha b hb hc
      have hb1 : b = (⟨nid, uid', eid', .confirmed⟩ : Booking) := by
        simpa using hb
      subst hb1
      exact findConfirmedBooking_none_forall hdup a ha
        ⟨hc.1, hc.2.1, hc.2.2.1⟩
  · intro f b hdup
    exact create_already_booked uid eid now db nid f b hdup
  · intro ev hdup hev hpast hcat hlt
    rw [create_insert_path uid eid now db nid _ ev hdup hev hpast hcat]
    exact attemptInsert_unique db uid eid ev.maxCapacity nid hlt

theorem c4_witness :
    create_booking_safe (some 2) (some 2) (some 10) nowW dbW 99 .ok =
      ⟨failRes alreadyBookedMsg, dbW, none⟩ :=
  (c4_already_booked_uniform 2 10 nowW dbW 99).2.1 .ok ⟨5, 2, 10, .confirmed⟩
    (by decide)

/-! Lemmas showing every blocking check ignores non-confirmed bookings. -/

theorem findConfirmedBooking_append_cancelled (bs extra : List Booking)
    (uid eid : Nat) (hx : ∀ b ∈ extra, b.status = BookingStatus.cancelled) :
    findConfirmedBooking (bs ++ extra) uid eid =
      findConfirmedBooking bs uid eid := by
  unfold findConfirmedBooking
  exact find?_append_fail _ bs extra (fun b hb => by simp [hx b hb])

theorem countConfirmed_append_cancelled (bs extra : List Booking) (eid : Nat)
    (hx : ∀ b ∈ extra, b.status = BookingStatus.cancelled) :
    countConfirmed (bs ++ extra) eid = countConfirmed bs eid := by
  unfold countConfirmed
  rw [List.filter_append]
  have : extra.filter (fun b =>
      b.eventId == eid && decide (b.status = BookingStatus.confirmed)) = [] :=
    List.filter_eq_nil_iff.mpr (fun b hb => by simp [hx b hb])
  rw [this, List.append_nil]

theorem findSameTypeBooking_append_cancelled (db : DB) (extra : List Booking)
    (uid : Nat) (t : EventType) (now : Date)
    (hx : ∀ b ∈ extra, b.status = BookingStatus.cancelled) :
    findSameTypeBooking ⟨db.events, db.bookings ++ extra⟩ uid t now =
      findSameTypeBooking db uid t now := by
  unfold findSameTypeBooking
  exact find?_append_fail _ db.bookings extra (fun b hb => by simp [hx b hb])

theorem attemptInsert_res_congr (db₁ db₂ : DB) (uid eid cap nid : Nat) (f : Fault)
    (hc : countConfirmed db₁.bookings eid = countConfirmed db₂.bookings eid) :
    (attemptInsert db₁ uid eid cap nid f).res =
      (attemptInsert db₂ uid eid cap nid f).res := by
  unfold attemptInsert
  rcases f with _ | _ | ⟨e, s⟩
  · dsimp only; rw [hc]
    by_cases h : countConfirmed db₂.bookings eid < cap <;> simp [h]
  · dsimp only; rw [hc]
    by_cases h : countConfirmed db₂.bookings eid < cap <;> simp [h]
  · rfl

/-- C10: every blocking check of `create_booking_safe` (duplicate check,
single-active-category check, capacity count) only looks at bookings with
status 'confirmed': adding any batch of cancelled bookings to the table
changes neither the returned payload nor the confirmed count, so a
cancelled booking never blocks a new booking. -/
theorem c10_cancelled_never_blocks (authUid pu pe : Option Nat) (now : Date)
    (db : DB) (nid : Nat) (f : Fault) (extra : List Booking)
    (hx : ∀ b ∈ extra, b.status = BookingStatus.cancelled) :
    (create_booking_safe authUid pu pe now ⟨db.events, db.bookings ++ extra⟩
        nid f).res =
      (create_booking_safe authUid pu pe now db nid f).res ∧
    (∀ eid, countConfirmed (db.bookings ++ extra) eid =
      countConfirmed db.bookings eid) := by
  refine ⟨?_, fun eid => countConfirmed_append_cancelled db.bookings extra eid hx⟩
  rcases pu with _ | uid
  · rw [create_missing_input authUid none pe now _ nid f (Or.inl rfl),
      create_missing_input authUid none pe now db nid f (Or.inl rfl)]
  rcases pe with _ | eid
  · rw [create_missing_input authUid (some uid) none now _ nid f (Or.inr rfl),
      create_missing_input authUid (some uid) none now db nid f (Or.inr rfl)]
  rcases authUid with _ | cur
  · rw [create_unauthenticated uid eid now _ nid f,
      create_unauthenticated uid eid now db nid f]
  by_cases hcur : cur ≠ uid
  · rw [create_unauthorized cur uid eid now _ nid f hcur,
      create_unauthorized cur uid eid now db nid f hcur]
  have hcur' : cur = uid := not_not.mp hcur
  subst hcur'
  have hdup' : findConfirmedBooking (⟨db.events, db.bookings ++ extra⟩ : DB).bookings
      cur eid = findConfirmedBooking db.bookings cur eid :=
    findConfirmedBooking_append_cancelled db.bookings extra cur eid hx
  cases hdup : findConfirmedBooking db.bookings cur eid with
  | some b =>
      rw [create_already_booked cur eid now _ nid f b (hdup'.trans hdup),
        create_already_booked cur eid now db nid f b hdup]
  | none =>
  cases hev : findEvent db.events eid with
  | none =>
      rw [create_event_not_found cur eid now _ nid f (hdup'.trans hdup) hev,
        create_event_not_found cur eid now db nid f hdup hev]
  | some ev =>
  by_cases hpast : ev.dateTime.blt now = true
  · rw [create_past_event cur eid now _ nid f ev (hdup'.trans hdup) hev hpast,
      create_past_event cur eid now db nid f ev hdup hev hpast]
  have hpast' : ev.dateTime.blt now = false := by
    rcases Bool.dichotomy (ev.dateTime.blt now) with h | h
    · exact h
    · exact absurd h hpast
  have hst' : ∀ t, findSameTypeBooking ⟨db.events, db.bookings ++ extra⟩ cur t now =
      findSameTypeBooking db cur t now :=
    fun t => findSameTypeBooking_append_cancelled db extra cur t now hx
  by_cases hcat : ev.eventType = EventType.funAssessmentDay ∨
      ev.eventType = EventType.dexaScan
  · cases hstv : findSameTypeBooking db cur ev.eventType now with
    | some b =>
        rw [create_category_conflict cur eid now _ nid f ev b (hdup'.trans hdup)
            hev hpast' hcat ((hst' _).trans hstv),
          create_category_conflict cur eid now db nid f ev b hdup hev hpast'
            hcat hstv]
    | none =>
        rw [create_insert_path cur eid now _ nid f ev (hdup'.trans hdup) hev
            hpast' (fun _ => (hst' _).trans hstv),
          create_insert_path cur eid now db nid f ev hdup hev hpast'
            (fun _ => hstv)]
        exact attemptInsert_res_congr _ db cur eid ev.maxCapacity nid f
          (countConfirmed_append_cancelled db.bookings extra eid hx)
  · rw [create_insert_path cur eid now _ nid f ev (hdup'.trans hdup) hev hpast'
        (fun hc => absurd hc hcat),
      create_insert_path cur eid now db nid f ev hdup hev hpast'
        (fun hc => absurd hc hcat)]
    exact attemptInsert_res_congr _ db cur eid ev.maxCapacity nid f
      (countConfirmed_append_cancelled db.bookings extra eid hx)

theorem c10_witness :
    (create_booking_safe (some 1) (some 1) (some 10) nowW
        ⟨[evW], [⟨7, 1, 10, .cancelled⟩]⟩ 99 .ok).res =
      (create_booking_safe (some 1) (some 1) (some 10) nowW
        ⟨[evW], []⟩ 99 .ok).res :=
  (c10_cancelled_never_blocks (some 1) (some 1) (some 10) nowW ⟨[evW], []⟩ 99
      .ok [⟨7, 1, 10, .cancelled⟩]
      (fun b hb => by simpa using congrArg Booking.status (by simpa using hb))).1

/-! ## C8: error containment at the operation boundary. -/

/-- Every exit of `create_booking_safe` is a typed payload: success with a
booking id and no error message, or failure with a message and no id. -/
theorem create_res_shape (authUid pu pe : Option Nat) (now : Date) (db : DB)
    (nid : Nat) (f : Fault) :
    ((create_booking_safe authUid pu pe now db nid f).res.success = true ∧
      (create_booking_safe authUid pu pe now db nid f).res.error = none ∧
      (create_booking_safe authUid pu pe now db nid f).res.bookingId = some nid) ∨
    ((create_booking_safe authUid pu pe now db nid f).res.success = false ∧
      (∃ m, (create_booking_safe authUid pu pe now db nid f).res.error = some m) ∧
      (create_booking_safe authUid pu pe now db nid f).res.bookingId = none) := by
  unfold create_booking_safe
  rcases pu with _ | uid
  · exact Or.inr ⟨rfl, ⟨_, rfl⟩, rfl⟩
  rcases pe with _ | eid
  · exact Or.inr ⟨rfl, ⟨_, rfl⟩, rfl⟩
  rcases authUid with _ | cur
  · exact Or.inr ⟨rfl, ⟨_, rfl⟩, rfl⟩
  dsimp only
  by_cases hcur : cur ≠ uid
  · rw [if_pos hcur]; exact Or.inr ⟨rfl, ⟨_, rfl⟩, rfl⟩
  rw [if_neg hcur]
  cases hdup : findConfirmedBooking db.bookings uid eid with
  | some b => exact Or.inr ⟨rfl, ⟨_, rfl⟩, rfl⟩
  | none =>
  cases hev : findEvent db.events eid with
  | none => exact Or.inr ⟨rfl, ⟨_, rfl⟩, rfl⟩
  | some ev =>
  dsimp only
  by_cases hpast : ev.dateTime.blt now
  · rw [if_pos hpast]; exact Or.inr ⟨rfl, ⟨_, rfl⟩, rfl⟩
  rw [if_neg hpast]
  have hins : ∀ cap,
      ((attemptInsert db uid eid cap nid f).res.success = true ∧
        (attemptInsert db uid eid cap nid f).res.error = none ∧
        (attemptInsert db uid eid cap nid f).res.bookingId = some nid) ∨
      ((attemptInsert db uid eid cap nid f).res.success = false ∧
        (∃ m, (attemptInsert db uid eid cap nid f).res.error = some m) ∧
        (attemptInsert db uid eid cap nid f).res.bookingId = none) := by
    intro cap
    unfold attemptInsert
    rcases f with _ | _ | ⟨e, s⟩
    · dsimp only
      by_cases h : countConfirmed db.bookings eid < cap
      · rw [if_pos h]; exact Or.inl ⟨rfl, rfl, rfl⟩
      · rw [if_neg h]; exact Or.inr ⟨rfl, ⟨_, rfl⟩, rfl⟩
    · dsimp only
      by_cases h : countConfirmed db.bookings eid < cap
      · rw [if_pos h]; exact Or.inr ⟨rfl, ⟨_, rfl⟩, rfl⟩
      · rw [if_neg h]; exact Or.inr ⟨rfl, ⟨_, rfl⟩, rfl⟩
    · exact Or.inr ⟨rfl, ⟨_, rfl⟩, rfl⟩
  by_cases hcat : ev.eventType = EventType.funAssessmentDay ∨
      ev.eventType = EventType.dexaScan
  · rw [if_pos hcat]
    cases hst : findSameTypeBooking db uid ev.eventType now with
    | some b => exact Or.inr ⟨rfl, ⟨_, rfl⟩, rfl⟩
    | none => exact hins ev.maxCapacity
  · rw [if_neg hcat]
    exact hins ev.maxCapacity

/-- C8 counterexample: the caller-visible message of the internal-fault
path is not non-committal — it varies with the underlying SQLERRM, so the
internal diagnostic detail crosses the boundary. -/
theorem c8_counterexample :
    (create_booking_safe (some 1) (some 1) (some 10) nowW ⟨[evW], []⟩ 99
        (.otherError "connection reset by peer" "08006")).res ≠
      (create_booking_safe (some 1) (some 1) (some 10) nowW ⟨[evW], []⟩ 99
        (.otherError "deadlock detected" "40P01")).res := by decide

/-- C8 (amended): every exit path returns a typed result and both handlers
keep faults from propagating; on an internal fault the full detail is
logged server-side as a warning, but the caller-visible message is
'Failed to create booking: ' followed by the raw SQLERRM — it is not a
generic non-committal message. -/
theorem c8_internal_fault_boundary (authUid pu pe : Option Nat) (now : Date)
    (db : DB) (nid : Nat) (f : Fault) :
    (((create_booking_safe authUid pu pe now db nid f).res.success = true ∧
      (create_booking_safe authUid pu pe now db nid f).res.error = none ∧
      (create_booking_safe authUid pu pe now db nid f).res.bookingId = some nid) ∨
    ((create_booking_safe authUid pu pe now db nid f).res.success = false ∧
      (∃ m, (create_booking_safe authUid pu pe now db nid f).res.error = some m) ∧
      (create_booking_safe authUid pu pe now db nid f).res.bookingId = none)) ∧
    (∀ uid eid ev errm st, pu = some uid → pe = some eid → authUid = some uid →
      findConfirmedBooking db.bookings uid eid = none →
      findEvent db.events eid = some ev →
      ev.dateTime.blt now = false →
      (ev.eventType = EventType.funAssessmentDay ∨
          ev.eventType = EventType.dexaScan →
        findSameTypeBooking db uid ev.eventType now = none) →
      f = .otherError errm st →
      create_booking_safe authUid pu pe now db nid f =
        ⟨failRes ("Failed to create booking: " ++ errm), db,
          some (internalWarning uid eid errm st)⟩) := by
  constructor
  · exact create_res_shape authUid pu pe now db nid f
  · rintro uid eid ev errm st rfl rfl rfl hdup hev hpast hcat rfl
    rw [create_insert_path uid eid now db nid _ ev hdup hev hpast hcat]
    exact attemptInsert_other db uid eid ev.maxCapacity nid errm st

theorem c8_witness :
    create_booking_safe (some 1) (some 1) (some 10) nowW ⟨[evW], []⟩ 99
        (.otherError "connection reset by peer" "08006") =
      ⟨failRes ("Failed to create booking: " ++ "connection reset by peer"),
        ⟨[evW], []⟩,
        some (internalWarning 1 10 "connection reset by peer" "08006")⟩ :=
  (c8_internal_fault_boundary (some 1) (some 1) (some 10) nowW ⟨[evW], []⟩ 99
      (.otherError "connection reset by peer" "08006")).2 1 10 evW
    "connection reset by peer" "08006" rfl rfl rfl (by decide) (by decide)
    (by decide) (fun h => by decide) rfl

/-! ## Mission engine lemmas. -/

theorem targetStatus_gate_not_completed {g : MStatus} (c b t : Nat)
    (h : g ≠ .completed) : targetStatus g c b t = .notStarted := if_neg h

/-- Pointwise containment of attendance maps (more events attended). -/
def attLE (att att' : Nat → Bool) : Prop := ∀ e, att e = true → att' e = true

theorem countAttended_mono (es : List EventInfo) (att att' : Nat → Bool)
    (h : attLE att att') : countAttended es att ≤ countAttended es att' := by
  unfold countAttended
  induction es with
  | nil => exact Nat.le_refl 0
  | cons e tl ih =>
      simp only [List.filter_cons]
      by_cases h1 : att e.id = true
      · rw [if_pos h1, if_pos (h _ h1)]
        simpa using ih
      · rw [if_neg h1]
        by_cases h2 : att' e.id = true
        · rw [if_pos h2]
          exact Nat.le_trans ih (by simp)
        · rw [if_neg h2]
          exact ih

theorem any_mono (l : List EventInfo) (p q : EventInfo → Bool)
    (h : ∀ x ∈ l, p x = true → q x = true) (hl : l.any p = true) :
    l.any q = true := by
  rcases List.any_eq_true.mp hl with ⟨x, hx, hpx⟩
  exact List.any_eq_true.mpr ⟨x, hx, h x hx hpx⟩

/-- Rank comparison from the two transport directions. -/
theorem rank_le_of (a b : MStatus) (h2 : a = .completed → b = .completed)
    (h0 : b = .notStarted → a = .notStarted) : a.rank ≤ b.rank := by
  cases a <;> cases b <;> simp_all [MStatus.rank]

theorem firstEventStatus_completed_mono (es : List EventInfo)
    (att att' : Nat → Bool) (h : attLE att att')
    (hc : firstEventStatus es att = .completed) :
    firstEventStatus es att' = .completed := by
  cases es with
  | nil => simp [firstEventStatus] at hc
  | cons e tl =>
      unfold firstEventStatus at hc ⊢
      dsimp only at hc ⊢
      by_cases h1 : att e.id = true
      · rw [if_pos (h _ h1)]
      · rw [if_neg h1] at hc
        exact absurd hc (by simp)

theorem firstEventStatus_notStarted (es : List EventInfo) (att : Nat → Bool) :
    firstEventStatus es att = .notStarted ↔ es = [] := by
  cases es with
  | nil => simp [firstEventStatus]
  | cons e tl =>
      simp only [firstEventStatus]
      by_cases h1 : att e.id = true <;> simp [h1]

theorem mission1Status_completed_mono (rows : List BookingRow)
    (att att' : Nat → Bool) (h : attLE att att')
    (hc : mission1Status rows att = .completed) :
    mission1Status rows att' = .completed :=
  firstEventStatus_completed_mono (funEvs rows) att att' h hc

theorem mission2Status_completed_mono (rows : List BookingRow)
    (att att' : Nat → Bool) (h : attLE att att')
    (hc : mission2Status rows att = .completed) :
    mission2Status rows att' = .completed := by
  unfold mission2Status at hc ⊢
  by_cases h1 : mission1Status rows att = .completed
  · rw [if_pos h1] at hc
    rw [if_pos (mission1Status_completed_mono rows att att' h h1)]
    exact firstEventStatus_completed_mono (scanEvs rows) att att' h hc
  · rw [if_neg h1] at hc
    exact absurd hc (by simp)

theorem mission1Status_notStarted_rev (rows : List BookingRow)
    (att att' : Nat → Bool)
    (h0 : mission1Status rows att' = .notStarted) :
    mission1Status rows att = .notStarted := by
  unfold mission1Status at h0 ⊢
  rw [firstEventStatus_notStarted] at h0 ⊢
  exact h0

theorem mission2Status_notStarted_rev (rows : List BookingRow)
    (att att' : Nat → Bool) (h : attLE att att')
    (h0 : mission2Status rows att' = .notStarted) :
    mission2Status rows att = .notStarted := by
  unfold mission2Status at h0 ⊢
  by_cases h1 : mission1Status rows att = .completed
  · rw [if_pos (mission1Status_completed_mono rows att att' h h1)] at h0
    rw [if_pos h1]
    rw [firstEventStatus_notStarted] at h0 ⊢
    exact h0
  · rw [if_neg h1]

theorem targetStatus_completed_mono {g g' : MStatus} {c c' b t : Nat}
    (hg : g = .completed → g' = .completed) (hc : c ≤ c')
    (h : targetStatus g c b t = .completed) :
    targetStatus g' c' b t = .completed := by
  unfold targetStatus at h ⊢
  by_cases h1 : g = .completed
  · rw [if_pos h1] at h
    rw [if_pos (hg h1)]
    by_cases h2 : t ≤ c
    · rw [if_pos (Nat.le_trans h2 hc)]
    · rw [if_neg h2] at h
      by_cases h3 : 0 < b
      · rw [if_pos h3] at h
        exact absurd h (by simp)
      · rw [if_neg h3] at h
        exact absurd h (by simp)
  · rw [if_neg h1] at h
    exact absurd h (by simp)

theorem targetStatus_notStarted_rev {g g' : MStatus} {c c' b t : Nat}
    (hg : g = .completed → g' = .completed) (hc : c ≤ c')
    (h : targetStatus g' c' b t = .notStarted) :
    targetStatus g c b t = .notStarted := by
  unfold targetStatus at h ⊢
  by_cases h1 : g = .completed
  · rw [if_pos (hg h1)] at h
    rw [if_pos h1]
    by_cases h2 : t ≤ c'
    · rw [if_pos h2] at h
      exact absurd h (by simp)
    · rw [if_neg h2] at h
      rw [if_neg (fun hx => h2 (Nat.le_trans hx hc))]
      by_cases h3 : 0 < b
      · rw [if_pos h3] at h
        exact absurd h (by simp)
      · rw [if_neg h3]
  · rw [if_neg h1]

theorem mission5Status_completed_mono (rows : List BookingRow)
    (att att' : Nat → Bool) (now : Date) (h : attLE att att')
    (hc : mission5Status rows att now = .completed) :
    mission5Status rows att' now = .completed := by
  unfold mission5Status at hc ⊢
  cases htm : threeMonthsLater rows with
  | none =>
      rw [htm] at hc
      exact absurd hc (by simp)
  | some t =>
      simp only [htm] at hc ⊢
      by_cases hb : t.ble now = true
      · rw [if_pos hb] at hc ⊢
        by_cases h1 : (funEvs rows).any (fun e => t.ble e.dateTime && att e.id) = true
        · refine if_pos (any_mono _ _ _ (fun x _ hpx => ?_) h1)
          have hpx' : t.ble x.dateTime = true ∧ att x.id = true := by
            simpa using hpx
          simp [hpx'.1, h _ hpx'.2]
        · rw [if_neg h1] at hc
          by_cases h2 : (funEvs rows).any (fun e => t.ble e.dateTime) = true
          · rw [if_pos h2] at hc
            exact absurd hc (by simp)
          · rw [if_neg h2] at hc
            exact absurd hc (by simp)
      · rw [if_neg hb] at hc
        exact absurd hc (by simp)

theorem mission5Status_notStarted_rev (rows : List BookingRow)
    (att att' : Nat → Bool) (now : Date) (_h : attLE att att')
    (h0 : mission5Status rows att' now = .notStarted) :
    mission5Status rows att now = .notStarted := by
  unfold mission5Status at h0 ⊢
  cases htm : threeMonthsLater rows with
  | none => simp only [htm]
  | some t =>
      simp only [htm] at h0 ⊢
      by_cases hb : t.ble now = true
      · rw [if_pos hb] at h0 ⊢
        by_cases h2 : (funEvs rows).any (fun e => t.ble e.dateTime) = true
        · exfalso
          by_cases h1 : (funEvs rows).any (fun e => t.ble e.dateTime && att' e.id) = true
          · rw [if_pos h1] at h0
            simp at h0
          · rw [if_neg h1, if_pos h2] at h0
            simp at h0
        · have h1 : ¬ (funEvs rows).any
              (fun e => t.ble e.dateTime && att e.id) = true := by
            intro hx
            refine h2 (any_mono _ _ _ (fun x _ hpx => ?_) hx)
            have hpx' : t.ble x.dateTime = true ∧ att x.id = true := by
              simpa using hpx
            exact hpx'.1
          rw [if_neg h1, if_neg h2]
      · rw [if_neg hb]

/-! ## C5, C6, C7, C9. -/

def rowsC5 : List BookingRow :=
  [⟨some ⟨1, .funAssessmentDay, ⟨2024, 1, 10, 600⟩⟩⟩,
   ⟨some ⟨2, .dexaScan, ⟨2024, 1, 20, 600⟩⟩⟩,
   ⟨some ⟨3, .funAssessmentDay, ⟨2024, 2, 5, 600⟩⟩⟩]

def pdsC5 : List ParticipantDataRow :=
  [⟨1, some true⟩, ⟨2, some true⟩, ⟨3, some true⟩]

def nowC5 : Date := ⟨2024, 2, 20, 0⟩

/-- C5 counterexample: for a user who attended their first assessment, the
scan, and a second assessment but booked no touchpoints, the third mission
("9 Touchpoints") is `not_started` while the adjacent fourth mission (the
extra assessment) is reported `completed` and unlocked — so mission k+1 can
be `completed` while mission k is not. -/
theorem c5_counterexample :
    ((getUserMissions rowsC5 pdsC5 nowC5).get? 2).map Mission.status =
        some .notStarted ∧
    ((getUserMissions rowsC5 pdsC5 nowC5).get? 3).map
        (fun m => (m.status, m.isLocked)) = some (.completed, false) := by
  constructor <;> decide

/-- C5 (amended): the gating the code actually implements — mission 2 is
locked/`not_started` while mission 1 is not completed, and missions 3 and 4
are each locked/`not_started` while mission 2 is not completed (they are
gated on mission 2, not on each other); the final mission is gated only by
the 3-month unlock date. -/
theorem c5_mission_gating (rows : List BookingRow)
    (pds : List ParticipantDataRow) (now : Date) :
    (mission1Status rows (mkAttendance pds) ≠ .completed →
      ((getUserMissions rows pds now).get? 1).map
        (fun m => (m.status, m.isLocked)) = some (.notStarted, true)) ∧
    (mission2Status rows (mkAttendance pds) ≠ .completed →
      ((getUserMissions rows pds now).get? 2).map
          (fun m => (m.status, m.isLocked)) = some (.notStarted, true) ∧
      ((getUserMissions rows pds now).get? 3).map
          (fun m => (m.status, m.isLocked)) = some (.notStarted, true)) ∧
    (((getUserMissions rows pds now).get? 4).map Mission.isLocked =
      some (!mission5Unlocked rows now)) := by
  refine ⟨?_, ?_, ?_⟩
  · intro h
    simp only [getUserMissions, getUserMissionsCore, List.get?, Option.map]
    rw [mission2Status, if_neg h]
    simp [h]
  · intro h
    have h3a : mission3aStatus rows (mkAttendance pds) = .notStarted :=
      targetStatus_gate_not_completed _ _ _ h
    have h3b : mission3bStatus rows (mkAttendance pds) = .notStarted :=
      targetStatus_gate_not_completed _ _ _ h
    constructor
    · simp only [getUserMissions, getUserMissionsCore, List.get?, Option.map]
      rw [h3a]
      simp [h]
    · simp only [getUserMissions, getUserMissionsCore, List.get?, Option.map]
      rw [h3b]
      simp [h]
  · simp only [getUserMissions, getUserMissionsCore, List.get?, Option.map]

theorem c5_gating_witness :
    ((getUserMissions [] [] nowC5).get? 1).map
        (fun m => (m.status, m.isLocked)) = some (.notStarted, true) ∧
    ((getUserMissions [] [] nowC5).get? 2).map
        (fun m => (m.status, m.isLocked)) = some (.notStarted, true) :=
  ⟨(c5_mission_gating [] [] nowC5).1 (by decide),
   ((c5_mission_gating [] [] nowC5).2.1 (by decide)).1⟩

/-- C6: adding attendance records only moves mission statuses forward.
If every event attended under `att` is still attended under `att'`, every
mission's status rank (`not_started` < `incomplete` < `completed`) is
pointwise ≤ between the two runs; in particular `completed` never
reverts. -/
theorem c6_attendance_monotone (rows : List BookingRow)
    (att att' : Nat → Bool) (now : Date) (h : attLE att att') :
    List.Forall₂ (fun m m' => m.status.rank ≤ m'.status.rank)
      (getUserMissionsCore rows att now) (getUserMissionsCore rows att' now) := by
  refine List.Forall₂.cons ?_ (List.Forall₂.cons ?_ (List.Forall₂.cons ?_
    (List.Forall₂.cons ?_ (List.Forall₂.cons ?_ List.Forall₂.nil))))
  · exact rank_le_of _ _ (mission1Status_completed_mono rows att att' h)
      (mission1Status_notStarted_rev rows att att')
  · exact rank_le_of _ _ (mission2Status_completed_mono rows att att' h)
      (mission2Status_notStarted_rev rows att att' h)
  · exact rank_le_of _ _
      (targetStatus_completed_mono (mission2Status_completed_mono rows att att' h)
        (countAttended_mono (tpEvs rows) att att' h))
      (targetStatus_notStarted_rev (mission2Status_completed_mono rows att att' h)
        (countAttended_mono (tpEvs rows) att att' h))
  · exact rank_le_of _ _
      (targetStatus_completed_mono (mission2Status_completed_mono rows att att' h)
        (countAttended_mono ((funEvs rows).drop 1) att att' h))
      (targetStatus_notStarted_rev (mission2Status_completed_mono rows att att' h)
        (countAttended_mono ((funEvs rows).drop 1) att att' h))
  · exact rank_le_of _ _ (mission5Status_completed_mono rows att att' now h)
      (mission5Status_notStarted_rev rows att att' now h)

theorem c6_witness :
    List.Forall₂ (fun m m' => m.status.rank ≤ m'.status.rank)
      (getUserMissionsCore rowsC5 (fun _ => false) nowC5)
      (getUserMissionsCore rowsC5 (fun _ => true) nowC5) :=
  c6_attendance_monotone rowsC5 (fun _ => false) (fun _ => true) nowC5
    (fun _ _ => rfl)

/-- C7: the final mission unlocks exactly three calendar months (via
`setMonth`-style month arithmetic with day overflow) after the first
assessment event; while `now` is before that date it is locked with status
`not_started`, and once unlocked its status is the booked/attended
trichotomy over assessment events dated at or after the unlock date. -/
theorem c7_final_mission (rows : List BookingRow) (att : Nat → Bool)
    (now : Date) (e0 : EventInfo) (rest : List EventInfo)
    (hfun : funEvs rows = e0 :: rest) :
    (((getUserMissionsCore rows att now).get? 4).map Mission.unlockDate =
      some (some e0.dateTime.addThreeMonths)) ∧
    (e0.dateTime.addThreeMonths.ble now = false →
      ((getUserMissionsCore rows att now).get? 4).map
        (fun m => (m.isLocked, m.status)) = some (true, .notStarted)) ∧
    (e0.dateTime.addThreeMonths.ble now = true →
      (((getUserMissionsCore rows att now).get? 4).map Mission.isLocked =
        some false) ∧
      ((funEvs rows).any
          (fun e => e0.dateTime.addThreeMonths.ble e.dateTime) = false →
        ((getUserMissionsCore rows att now).get? 4).map Mission.status =
          some .notStarted) ∧
      ((funEvs rows).any
          (fun e => e0.dateTime.addThreeMonths.ble e.dateTime) = true →
       (funEvs rows).any
          (fun e => e0.dateTime.addThreeMonths.ble e.dateTime && att e.id) =
            false →
        ((getUserMissionsCore rows att now).get? 4).map Mission.status =
          some .incomplete) ∧
      ((funEvs rows).any
          (fun e => e0.dateTime.addThreeMonths.ble e.dateTime && att e.id) =
            true →
        ((getUserMissionsCore rows att now).get? 4).map Mission.status =
          some .completed)) := by
  have htm : threeMonthsLater rows = some e0.dateTime.addThreeMonths := by
    unfold threeMonthsLater
    rw [hfun]
    rfl
  refine ⟨?_, ?_, ?_⟩
  · simp only [getUserMissionsCore, List.get?, Option.map]
    rw [htm]
  · intro hb
    simp only [getUserMissionsCore, List.get?, Option.map]
    rw [mission5Unlocked, htm, mission5Status, htm]
    simp only [hb]
    rfl
  · intro hb
    refine ⟨?_, ?_, ?_, ?_⟩
    · simp only [getUserMissionsCore, List.get?, Option.map]
      rw [mission5Unlocked, htm]
      simp [hb]
    · intro h2
      have h1 : (funEvs rows).any
          (fun e => e0.dateTime.addThreeMonths.ble e.dateTime && att e.id) =
            false := by
        cases hx : (funEvs rows).any
            (fun e => e0.dateTime.addThreeMonths.ble e.dateTime && att e.id) with
        | false => rfl
        | true =>
            have hq := any_mono _ _ _
              (fun x _ hpx => by
                have hpx' : e0.dateTime.addThreeMonths.ble x.dateTime = true ∧
                    att x.id = true := by simpa using hpx
                exact hpx'.1) hx
            rw [h2] at hq
            exact Bool.noConfusion hq
      simp only [getUserMissionsCore, List.get?, Option.map]
      rw [mission5Status]
      simp only [htm]
      rw [if_pos hb, if_neg (by simp [h1]), if_neg (by simp [h2])]
    · intro h2 h1
      simp only [getUserMissionsCore, List.get?, Option.map]
      rw [mission5Status]
      simp only [htm]
      rw [if_pos hb, if_neg (by simp [h1]), if_pos h2]
    · intro h1
      simp only [getUserMissionsCore, List.get?, Option.map]
      rw [mission5Status]
      simp only [htm]
      rw [if_pos hb, if_pos h1]

def rowsC7 : List BookingRow :=
  [⟨some ⟨1, .funAssessmentDay, ⟨2024, 1, 31, 0⟩⟩⟩,
   ⟨some ⟨2, .funAssessmentDay, ⟨2024, 5, 2, 0⟩⟩⟩]

theorem c7_witness :
    ((getUserMissionsCore rowsC7 (fun e => e == 2) ⟨2024, 6, 1, 0⟩).get? 4).map
        Mission.unlockDate = some (some ⟨2024, 5, 1, 0⟩) ∧
    ((getUserMissionsCore rowsC7 (fun e => e == 2) ⟨2024, 6, 1, 0⟩).get? 4).map
        Mission.status = some .completed := by
  have h := c7_final_mission rowsC7 (fun e => e == 2) ⟨2024, 6, 1, 0⟩
    ⟨1, .funAssessmentDay, ⟨2024, 1, 31, 0⟩⟩
    [⟨2, .funAssessmentDay, ⟨2024, 5, 2, 0⟩⟩] (by decide)
  exact ⟨h.1, (h.2.2 (by decide)).2.2.2 (by decide)⟩

def rowsC9 : List BookingRow :=
  [⟨some ⟨1, .funAssessmentDay, ⟨2024, 1, 10, 600⟩⟩⟩,
   ⟨some ⟨2, .dexaScan, ⟨2024, 1, 20, 600⟩⟩⟩,
   ⟨some ⟨10, .touchpoints, ⟨2024, 3, 1, 0⟩⟩⟩,
   ⟨some ⟨11, .touchpoints, ⟨2024, 3, 2, 0⟩⟩⟩,
   ⟨some ⟨12, .touchpoints, ⟨2024, 3, 3, 0⟩⟩⟩,
   ⟨some ⟨13, .touchpoints, ⟨2024, 3, 4, 0⟩⟩⟩,
   ⟨some ⟨14, .touchpoints, ⟨2024, 3, 5, 0⟩⟩⟩,
   ⟨some ⟨15, .touchpoints, ⟨2024, 3, 6, 0⟩⟩⟩,
   ⟨some ⟨16, .touchpoints, ⟨2024, 3, 7, 0⟩⟩⟩,
   ⟨some ⟨17, .touchpoints, ⟨2024, 3, 8, 0⟩⟩⟩,
   ⟨some ⟨18, .touchpoints, ⟨2024, 3, 9, 0⟩⟩⟩]

def pdsC9 : List ParticipantDataRow :=
  [⟨1, some true⟩, ⟨2, some true⟩, ⟨10, some true⟩, ⟨11, some true⟩,
   ⟨12, some true⟩, ⟨13, some true⟩, ⟨14, some true⟩, ⟨15, some true⟩,
   ⟨16, some true⟩, ⟨17, some true⟩, ⟨18, some true⟩]

/-- C9: the two `getUserMissions` variants are not extensionally equal.
For a user who attended the first assessment, the scan, and exactly nine
touchpoints, the split-milestone variant reports the touchpoint milestone
`completed` with progress '9/9 completed (9 booked)', while the combined
variant reports the merged milestone `incomplete` with progress
'9/10 completed (9 booked)'. -/
theorem c9_variants_differ :
    ((getUserMissions rowsC9 pdsC9 nowC5).get? 2).map Mission.status =
        some .completed ∧
    ((getUserMissionsV2 rowsC9 pdsC9 nowC5).get? 2).map Mission.status =
        some .incomplete ∧
    ((getUserMissions rowsC9 pdsC9 nowC5).get? 2).map Mission.progress =
        some (some "9/9 completed (9 booked)") ∧
    ((getUserMissionsV2 rowsC9 pdsC9 nowC5).get? 2).map Mission.progress =
        some (some "9/10 completed (9 booked)") := by
  refine ⟨?_, ?_, ?_, ?_⟩ <;> decide

end Fortify
